import Mathlib

set_option maxRecDepth 2000

/-!
Shallow embedding of the HamSCI grape1 per-station data pipeline
(src/hamsci_grape1/grape1.py and src/hamsci_grape1/gen_lib.py).

Timestamps are modelled as natural numbers of microseconds after the Unix
epoch; numeric sample values are modelled as rationals.  Exceptions raised by
Python, pandas, NumPy and SciPy on the modelled code paths are made explicit
through the error type PyErr; each constructor names the library error the
corresponding code path raises.
-/

/-- Errors raised on the code paths modelled here.  The constructor names
record which library error the original code raises at that point. -/
inductive PyErr where
  | emptySeriesMin      -- resample_data on an empty frame: min() gives NaT, datetime() then raises
  | interpTooShort      -- scipy interp1d requires at least two data points
  | boundsError         -- scipy interp1d with default bounds_error: query outside the data range
  | minEmptySeq         -- built-in min()/max() of an empty sequence
  | concatNoObjects     -- pandas concat of an empty list of frames
  | fileNotFound        -- pandas read_csv on a missing file, or shutil.rmtree on a missing directory
  | keyError            -- pandas .loc lookup of a missing key
  | indexError          -- indexing [0] into an empty array
  | zeroDivision        -- float division by zero
  | valueErrorWn        -- scipy butter: digital critical frequencies must satisfy 0 < Wn < 1
  | valueErrorShape     -- scipy iirfilter: Wn arity does not match the band type
  | valueErrorOrder     -- scipy buttap: the filter order must be nonnegative
  | padlenError         -- scipy filtfilt: the input must be longer than padlen
  | columnsMismatch     -- pandas: assigning 6 column names to a split of a different width
  | badDatetime         -- pandas to_datetime on an unparseable string
  | nodeParse           -- pandas astype(int) on a non-numeric string
  | nameError           -- reference to an undefined Python name
  | fileExists          -- os.makedirs on an existing directory
  | typeError
  deriving DecidableEq

/-- Whether an Except value is a success. -/
def isOkB {α : Type} : Except PyErr α → Bool
  | .ok _ => true
  | .error _ => false

/-- Minimum of a list of naturals, none on the empty list (the value the
built-in min() would return, which raises on an empty sequence). -/
def listMin? : List Nat → Option Nat
  | [] => none
  | x :: xs => some (xs.foldl Nat.min x)

/-- Maximum of a list of naturals, none on the empty list. -/
def listMax? : List Nat → Option Nat
  | [] => none
  | x :: xs => some (xs.foldl Nat.max x)

/-- One raw observation row: UTC timestamp (microseconds after the Unix
epoch), Doppler frequency in Hz and peak voltage in volts — the UTC, Freq and
Vpk columns of the per-station CSV files. -/
structure RawRow where
  utc : Nat
  freq : ℚ
  vpk : ℚ
  deriving DecidableEq

/-- A raw observation frame, row-oriented. -/
structure RawDf where
  rows : List RawRow
  deriving DecidableEq

/-- The UTC column of a frame. -/
def utcs (df : RawDf) : List Nat := df.rows.map (fun r => r.utc)

/-- Whole-second truncation of a microsecond timestamp: the effect of
rebuilding a datetime from its year..second fields only, dropping the
microsecond component (grape1.py:405-419). -/
def truncUs (t : Nat) : Nat := t / 1000000 * 1000000

/-- Julian date of a timestamp t microseconds after the Unix epoch, as pandas
Timestamp.to_julian_date computes it (the epoch is JD 2440587.5). -/
def jdOf (t : Nat) : ℚ := 4881175 / 2 + (t : ℚ) / 86400000000

/-- One step of the time-grid loop of grape1.py:421-423: keep appending
last + cadence while the last entry is strictly before the truncated end
time.  The fuel argument bounds the iteration count; e - last steps always
suffice when the cadence is positive (for a zero cadence the Python loop does
not terminate, a case no claim concerns). -/
def rsTimesAux (c : Nat) : Nat → Nat → Nat → List Nat
  | 0, _, _ => []
  | fuel + 1, last, e =>
    if last < e then (last + c) :: rsTimesAux c fuel (last + c) e else []

/-- The resampling time grid (grape1.py:421-423): start at the truncated
start time and append cadence steps while the last entry is still before the
truncated end time. -/
def rs_times (s e c : Nat) : List Nat := s :: rsTimesAux c (e - s) s e

/-- np.searchsorted with side left: the number of entries strictly below the
query. -/
def searchLeft (xs : List ℚ) (q : ℚ) : Nat :=
  (xs.takeWhile (fun x => decide (x < q))).length

/-- The linear-interpolation kernel of scipy interp1d (its private
_call_linear): clip the searchsorted index into [1, n-1], take the two
surrounding knots and apply the slope formula.  At duplicated knots the
Python slope is an IEEE infinity or NaN; rational division by zero yields 0
here — the success/failure behaviour, which the claims concern, is the same. -/
def callLinear (xs ys : List ℚ) (q : ℚ) : ℚ :=
  let i := max 1 (min (xs.length - 1) (searchLeft xs q))
  let xlo := xs.getD (i - 1) 0
  let xhi := xs.getD i 0
  let ylo := ys.getD (i - 1) 0
  let yhi := ys.getD i 0
  (yhi - ylo) / (xhi - xlo) * (q - xlo) + ylo

/-- The knot abscissas of an interp1d instance: the data sorted by abscissa
(argsort; a stable insertion sort stands in for the unspecified tie order of
NumPy quicksort). -/
def knotXs (pts : List (ℚ × ℚ)) : List ℚ :=
  (pts.insertionSort (fun a b => a.1 ≤ b.1)).map (fun p => p.1)

/-- The knot ordinates of an interp1d instance, in the same order. -/
def knotYs (pts : List (ℚ × ℚ)) : List ℚ :=
  (pts.insertionSort (fun a b => a.1 ≤ b.1)).map (fun p => p.2)

/-- scipy.interpolate.interp1d with the default settings used at
grape1.py:433-434: construction requires at least two data points, and with
the default bounds_error evaluation raises on any query outside the knot
range. -/
def interpCol (pts : List (ℚ × ℚ)) (qs : List ℚ) : Except PyErr (List ℚ) :=
  if pts.length < 2 then .error .interpTooShort
  else if qs.any (fun q =>
      decide (q < (knotXs pts).headD 0) || decide ((knotXs pts).getLastD 0 < q)) then
    .error .boundsError
  else .ok (qs.map (callLinear (knotXs pts) (knotYs pts)))

/-- Rebuild a row-oriented frame from the time grid and the two interpolated
columns (the DataFrame construction at grape1.py:428-437; all three lists
have the same length by construction). -/
def mkRawRows : List Nat → List ℚ → List ℚ → List RawRow
  | t :: ts, f :: fs, v :: vs => ⟨t, f, v⟩ :: mkRawRows ts fs vs
  | _, _, _ => []

/-- The resampling grid for a raw span: both endpoints truncated to whole
seconds. -/
def resampleGrid (sT eT c : Nat) : List Nat := rs_times (truncUs sT) (truncUs eT) c

/-- The Julian-date abscissa column of a frame (grape1.py:397). -/
def jdCol (df : RawDf) : List ℚ := df.rows.map (fun r => jdOf r.utc)

/-- Interpolate the Freq and the Vpk column of a frame at the grid times,
over Julian dates, in the column order of the df.keys() loop at
grape1.py:429-435. -/
def resampleCols (df : RawDf) (rs : List Nat) : Except PyErr (List ℚ × List ℚ) :=
  match interpCol ((jdCol df).zip (df.rows.map (fun r => r.freq))) (rs.map jdOf) with
  | .error err => .error err
  | .ok fvals =>
    match interpCol ((jdCol df).zip (df.rows.map (fun r => r.vpk))) (rs.map jdOf) with
    | .error err => .error err
    | .ok vvals => .ok (fvals, vvals)

/-- GrapeData.resample_data (grape1.py:393-442): truncate the observed span
to whole seconds, build the cadence grid, and linearly interpolate the Freq
and Vpk columns over Julian dates at the grid times.  On an empty frame the
min()/NaT path raises before any grid is built. -/
def resample_data (df : RawDf) (c : Nat) : Except PyErr RawDf :=
  match listMin? (utcs df), listMax? (utcs df) with
  | some sT, some eT =>
    match resampleCols df (resampleGrid sT eT c) with
    | .error err => .error err
    | .ok (fvals, vvals) => .ok ⟨mkRawRows (resampleGrid sT eT c) fvals vvals⟩
  | _, _ => .error .emptySeriesMin

/-- The first input timestamp (0 for an empty frame, a case the claims using
this abbreviation exclude). -/
def minUtc0 (df : RawDf) : Nat := (listMin? (utcs df)).getD 0

/-- The last input timestamp (0 for an empty frame). -/
def maxUtc0 (df : RawDf) : Nat := (listMax? (utcs df)).getD 0

/-- Boolean check that consecutive entries of a list differ by exactly c. -/
def stepsBy (c : Nat) : List Nat → Bool
  | a :: b :: t => (b == a + c) && stepsBy c (b :: t)
  | _ => true

/-- A pandas object-column cell for the Frequency column of the inventory:
either the original string label or the numeric value substituted for it. -/
inductive FreqVal where
  | str (s : String)
  | num (q : ℚ)
  deriving DecidableEq

/-- The frequency-abbreviation replacements of grape1.py:124-131, in source
order. -/
def freqTable : List (String × ℚ) :=
  [(("WWV5"), 5000000), (("WWV10"), 10000000), (("WWV2p5"), 2500000),
   (("WWV15"), 15000000), (("CHU3"), 3330000), (("CHU7"), 7850000),
   (("CHU14"), 14670000), (("Unknown"), 0)]

/-- First value bound to a key in an association list. -/
def tableLookup (s : String) : List (String × ℚ) → Option ℚ
  | [] => none
  | p :: rest => if p.1 = s then some p.2 else tableLookup s rest

/-- The row-wise effect of the eight .loc replacements at grape1.py:124-131:
a recognized label becomes its numeric value, any other label is kept as the
original string. -/
def convertFreq (s : String) : FreqVal :=
  match tableLookup s freqTable with
  | some v => .num v
  | none => .str s

/-- Python str.strip(chars): remove leading and trailing characters drawn
from the given character set — grape1.py:110 strips the characters of the
suffix, not the suffix as a substring. -/
def stripChars (s : String) (cs : String) : String :=
  ⟨((s.toList.dropWhile (fun c => cs.toList.contains c)).reverse.dropWhile
      (fun c => cs.toList.contains c)).reverse⟩

/-- Whether the first list is a prefix of the second. -/
def startsW : List Char → List Char → Bool
  | [], _ => true
  | _ :: _, [] => false
  | a :: as, b :: bs => a == b && startsW as bs

/-- Whether the needle occurs as a contiguous substring of the haystack
(pandas str.contains with a plain pattern). -/
def hasSub (needle : List Char) : List Char → Bool
  | [] => startsW needle []
  | b :: bs => startsW needle (b :: bs) || hasSub needle bs

/-- Split a character list at every occurrence of the separator (Python
str.split with an explicit separator: empty fields are kept). -/
def splitOnChar (sep : Char) : List Char → List (List Char)
  | [] => [[]]
  | c :: cs =>
    if c = sep then [] :: splitOnChar sep cs
    else
      match splitOnChar sep cs with
      | [] => [[c]]
      | w :: ws => (c :: w) :: ws

/-- Accumulating decimal parser over digit characters. -/
def parseNatAux : List Char → Nat → Option Nat
  | [], acc => some acc
  | c :: cs, acc =>
    if c.isDigit then parseNatAux cs (acc * 10 + (c.toNat - 48)) else none

/-- Python int() on the string forms this pipeline produces: an optional
leading minus sign followed by at least one decimal digit (leading zeros
allowed); anything else raises, which pandas astype(int) propagates. -/
def parseIntStr : List Char → Option Int
  | [] => none
  | c :: rest =>
    if c = ('-') then
      match rest with
      | [] => none
      | _ => (parseNatAux rest 0).map (fun n => -(n : Int))
    else (parseNatAux (c :: rest) 0).map (fun n => (n : Int))

/-- One row of the parsed filename table before frequency normalization:
parsed datetime (microseconds), node number, grid square, stripped frequency
label and the file name. -/
structure InvRec0 where
  dt : Nat
  node : Int
  grid : String
  freqLabel : String
  filename : String
  deriving DecidableEq

/-- One row of the built inventory: parsed datetime (microseconds), node
number, grid square, normalized frequency cell and the file name.  The G and
FRQ marker fields carry no information and are dropped (grape1.py:109). -/
structure InvRec where
  dt : Nat
  node : Int
  grid : String
  freqval : FreqVal
  filename : String
  deriving DecidableEq

/-- Parse one filename into the six underscore-separated fields of
grape1.py:107-120: datetime, node tag (leading N stripped, then parsed as an
integer), literal G, grid square, FRQ marker (dropped) and frequency label
(stripped of the suffix characters).  A filename that does not split into
exactly six fields makes the column assignment at grape1.py:108 fail.
Datetime parsing (pandas to_datetime) is abstracted as a parameter. -/
def parseRec (parseDt : String → Option Nat) (suffix : String) (fn : String) :
    Except PyErr InvRec0 :=
  match splitOnChar ('_') fn.toList with
  | [dtS, nodeS, _gS, gridS, _frqS, freqS] =>
    match parseDt (⟨dtS⟩ : String) with
    | none => .error .badDatetime
    | some dt =>
      match parseIntStr (stripChars (⟨nodeS⟩ : String) ("N")).toList with
      | none => .error .nodeParse
      | some node =>
        .ok ⟨dt, node, (⟨gridS⟩ : String), stripChars (⟨freqS⟩ : String) suffix, fn⟩
  | _ => .error .columnsMismatch

/-- DataInventory.__init__ (grape1.py:93-140) restricted to the record set
it builds: parse every filename, drop the rows whose frequency label
contains G1 (naming errors, grape1.py:121), then replace recognized labels
by their numeric values (grape1.py:124-131). -/
def buildInventory (parseDt : String → Option Nat) (fns : List String)
    (suffix : String) : Except PyErr (List InvRec) :=
  match fns.mapM (parseRec parseDt suffix) with
  | .error e => .error e
  | .ok pres =>
    .ok ((pres.filter (fun r => !hasSub (("G1").toList) r.freqLabel.toList)).map
      (fun r => ⟨r.dt, r.node, r.grid, convertFreq r.freqLabel, r.filename⟩))

/-- Python: sTime if it is not None, else the given default
(grape1.py:337-341). -/
def defaultTime : Option Nat → Option Nat → Option Nat
  | some t, _ => some t
  | none, d => d

/-- The inventory rows matching the requested frequency and node
(grape1.py:329-335). -/
def matchedRecs (inv : List InvRec) (node : Int) (freq : ℚ) : List InvRec :=
  (inv.filter (fun r => decide (r.freqval = FreqVal.num freq))).filter
    (fun r => decide (r.node = node))

/-- The file-selection step of GrapeData.__load_raw (grape1.py:323-346):
filter by frequency and node, default a missing start/end time to the
minimum/maximum observed datetime (the built-in min()/max() raise on an
empty sequence), keep the half-open range start ≤ t < end and sort by
datetime. -/
def selectFiles (inv : List InvRec) (node : Int) (freq : ℚ)
    (sT eT : Option Nat) : Except PyErr (List InvRec) :=
  match defaultTime sT (listMin? ((matchedRecs inv node freq).map (fun r => r.dt))),
        defaultTime eT (listMax? ((matchedRecs inv node freq).map (fun r => r.dt))) with
  | some s, some e =>
    .ok (((matchedRecs inv node freq).filter
        (fun r => decide (s ≤ r.dt) && decide (r.dt < e))).insertionSort
      (fun a b => a.dt ≤ b.dt))
  | _, _ => .error .minEmptySeq

/-- One row of the node registry table: callsign and coordinates. -/
structure NodeRow where
  callsign : String
  lat : ℚ
  lon : ℚ
  deriving DecidableEq

/-- The node registry (GrapeNodes.nodes_df), keyed by node number. -/
structure GrapeNodes where
  entries : List (Int × NodeRow)
  deriving DecidableEq

/-- pandas .loc row lookup by key, as an option. -/
def gnLookup (g : GrapeNodes) (n : Int) : Option NodeRow :=
  (g.entries.find? (fun p => decide (p.1 = n))).map (fun p => p.2)

/-- The call-sign resolution of grape1.py:366-369: only when the caller
passed no call sign and a node registry is available is the registry
consulted (raising KeyError for an unknown node); in every other case the
call sign becomes the empty string. -/
def resolveCallSign (cs : Option String) (gn : Option GrapeNodes) (node : Int) :
    Except PyErr String :=
  match cs with
  | some _ => .ok ("")
  | none =>
    match gn with
    | some g =>
      match gnLookup g node with
      | some row => .ok row.callsign
      | none => .error .keyError
    | none => .ok ("")

/-- The latitude/longitude resolution of grape1.py:374-378: a missing
coordinate is looked up in the registry when one is available, otherwise it
stays missing. -/
def resolveCoord (c : Option ℚ) (gn : Option GrapeNodes) (node : Int)
    (proj : NodeRow → ℚ) : Except PyErr (Option ℚ) :=
  match c with
  | some v => .ok (some v)
  | none =>
    match gn with
    | some g =>
      match gnLookup g node with
      | some row => .ok (some (proj row))
      | none => .error .keyError
    | none => .ok none

/-- The three slots of the station label format string at grape1.py:371
(frequency in MHz, zero-padded node number, call sign); the float and
zero-padded string renderings are kept symbolic. -/
structure Label where
  freq : ℚ
  node : Int
  callSign : String
  deriving DecidableEq

/-- The raw stage together with its metadata (grape1.py:380-391). -/
structure RawStage where
  df : RawDf
  label : Label
  lat : Option ℚ
  lon : Option ℚ
  deriving DecidableEq

/-- The per-file loading loop of grape1.py:349-360: read each selected file
(read_csv raises on a missing one), skip files with no rows, and subtract
the requested carrier frequency from the Freq column of the rest. -/
def readFiles (files : String → Option RawDf) (freq : ℚ) :
    List InvRec → Except PyErr (List RawDf)
  | [] => .ok []
  | r :: rest =>
    match files r.filename with
    | none => .error .fileNotFound
    | some d =>
      if d.rows = [] then readFiles files freq rest
      else
        match readFiles files freq rest with
        | .error e => .error e
        | .ok ds =>
          .ok (⟨d.rows.map (fun row => ⟨row.utc, row.freq - freq, row.vpk⟩)⟩ :: ds)

/-- pandas concat with ignore_index: all loaded frames share the UTC, Freq
and Vpk schema. -/
def concatDfs (ds : List RawDf) : RawDf := ⟨(ds.map (fun d => d.rows)).flatten⟩

/-- sort_values on the UTC column; a stable insertion sort stands in for the
unspecified tie order of the pandas quicksort. -/
def sortByUtc (d : RawDf) : RawDf :=
  ⟨d.rows.insertionSort (fun a b => a.utc ≤ b.utc)⟩

/-- GrapeData.__load_raw (grape1.py:320-391): select the matching inventory
rows, load and offset-correct each nonempty file, concatenate (pandas concat
raises on an empty list of frames) and sort by UTC, then resolve the label
call sign and the coordinates. -/
def loadRawData (inv : List InvRec) (files : String → Option RawDf)
    (node : Int) (freq : ℚ) (sT eT : Option Nat)
    (cs : Option String) (lat lon : Option ℚ) (gn : Option GrapeNodes) :
    Except PyErr RawStage :=
  match selectFiles inv node freq sT eT with
  | .error e => .error e
  | .ok sel =>
    match readFiles files freq sel with
    | .error e => .error e
    | .ok ds =>
      if ds = [] then .error .concatNoObjects
      else
        match resolveCallSign cs gn node with
        | .error e => .error e
        | .ok sign =>
          match resolveCoord lat gn node (fun row => row.lat) with
          | .error e => .error e
          | .ok latv =>
            match resolveCoord lon gn node (fun row => row.lon) with
            | .error e => .error e
            | .ok lonv =>
              .ok ⟨sortByUtc (concatDfs ds), ⟨freq, node, sign⟩, latv, lonv⟩

/-- A resampled-stage row after the Power_dB derivation. -/
structure RsRow where
  utc : Nat
  freq : ℚ
  vpk : ℚ
  power : ℚ
  deriving DecidableEq

/-- The resampled-stage frame after the Power_dB derivation. -/
structure RsDf where
  rows : List RsRow
  deriving DecidableEq

/-- The Power_dB derivation at grape1.py:315 on the resampled stage:
Power_dB = 20 * log10(Vpk), with NumPy log10 abstracted as a parameter (a
floating-point function outside the rational model). -/
def derivePower (lg : ℚ → ℚ) (d : RawDf) : RsDf :=
  ⟨d.rows.map (fun r => ⟨r.utc, r.freq, r.vpk, 20 * lg r.vpk⟩)⟩

/-- The filter band type (grape1.py:222, scipy btype). -/
inductive Btype where
  | low
  | high
  | bandpass
  | bandstop
  deriving DecidableEq

/-- A cutoff specification: a scalar period or a two-element pair of periods
in minutes (grape1.py:228-230). -/
inductive TcSpec where
  | scalar (tc : ℚ)
  | pair (t1 t2 : ℚ)
  deriving DecidableEq

/-- Wn = 1/(Tc*60) (grape1.py:233); none models the IEEE infinity that the
NumPy float division produces when Tc = 0. -/
def wn1 (tc : ℚ) : Option ℚ := if tc = 0 then none else some (1 / (tc * 60))

/-- The critical frequencies handed to signal.butter: a scalar or a pair. -/
inductive WnSpec where
  | scalar (w : Option ℚ)
  | pair (w1 w2 : Option ℚ)
  deriving DecidableEq

/-- The normalized cutoff computed by Filter.__init__ (grape1.py:233-236):
the element-wise reciprocal 1/(Tc*60), with a two-element Wn reversed. -/
def filterWn : TcSpec → WnSpec
  | .scalar tc => .scalar (wn1 tc)
  | .pair t1 t2 => .pair (wn1 t2) (wn1 t1)

/-- The validated filter parameters; the numeric Butterworth coefficients
are floating-point data not modelled (the claims concern only whether the
construction succeeds). -/
structure FilterState where
  fs : ℚ
  wn : WnSpec
  order : Int
  btype : Btype
  deriving DecidableEq

/-- The scipy digital critical-frequency check on one entry: with a sampling
rate fs the entry is rescaled to 2*Wn/fs and must lie strictly between 0 and
1; an infinite entry fails the check. -/
def wnBad (fs : ℚ) : Option ℚ → Bool
  | none => true
  | some w => decide (2 * w / fs ≤ 0) || decide (1 ≤ 2 * w / fs)

/-- Whether any critical-frequency entry fails the check. -/
def wnAnyBad (fs : ℚ) : WnSpec → Bool
  | .scalar w => wnBad fs w
  | .pair w1 w2 => wnBad fs w1 || wnBad fs w2

/-- The scipy iirfilter arity rule: lowpass and highpass need a scalar Wn,
bandpass and bandstop a pair. -/
def arityOk : Btype → WnSpec → Bool
  | .low, .scalar _ => true
  | .high, .scalar _ => true
  | .bandpass, .pair _ _ => true
  | .bandstop, .pair _ _ => true
  | _, _ => false

/-- scipy.signal.butter via iirfilter, for a digital design with fs given:
validates the critical frequencies (0 < 2*Wn/fs < 1), the Wn arity for the
band type, and the order — buttap raises for a negative order while order 0
is accepted and yields a trivial design. -/
def butter (N : Int) (wn : WnSpec) (btype : Btype) (fs : ℚ) :
    Except PyErr FilterState :=
  if wnAnyBad fs wn then .error .valueErrorWn
  else if !arityOk btype wn then .error .valueErrorShape
  else if N < 0 then .error .valueErrorOrder
  else .ok ⟨fs, wn, N, btype⟩

/-- Filter.__init__ (grape1.py:222-246): compute Wn from the cutoff periods,
reverse a two-element Wn, and hand everything to signal.butter.  There is no
validation before the butter call. -/
def filterInit (N : Int) (Tc : TcSpec) (btype : Btype) (fs : ℚ) :
    Except PyErr FilterState :=
  butter N (filterWn Tc) btype fs

/-- The number of filter coefficients of a Butterworth design of the given
order: N+1 taps for low/high, 2N+1 for the band types. -/
def ntaps (st : FilterState) : Nat :=
  match st.btype with
  | .bandpass => 2 * st.order.toNat + 1
  | .bandstop => 2 * st.order.toNat + 1
  | _ => st.order.toNat + 1

/-- Successive differences of the timestamp column (np.diff). -/
def diffsUtc : List Nat → List Int
  | a :: b :: t => ((b : Int) - (a : Int)) :: diffsUtc (b :: t)
  | _ => []

/-- Ascending deduplication of a sorted list. -/
def dedupSorted : List Int → List Int
  | a :: b :: t => if a = b then dedupSorted (b :: t) else a :: dedupSorted (b :: t)
  | l => l

/-- np.unique: the sorted list of distinct values. -/
def uniqueVals (l : List Int) : List Int :=
  dedupSorted (l.insertionSort (fun a b => a ≤ b))

/-- Rebuild a resampled-stage frame from its four columns. -/
def mkRsRows : List Nat → List ℚ → List ℚ → List ℚ → List RsRow
  | t :: ts, f :: fs, v :: vs, p :: ps => ⟨t, f, v, p⟩ :: mkRsRows ts fs vs ps
  | _, _, _, _ => []

/-- GrapeData.filter_data (grape1.py:444-458): derive the sampling rate from
the first unique timestamp difference of the resampled frame (indexing [0]
raises when the frame has fewer than two rows, and a zero difference makes
the float division raise), build the filter, and apply filtfilt to the Freq,
Vpk and Power_dB columns.  filtfilt itself (a floating-point convolution) is
abstracted as the parameter ff; its default padlen precondition
(len > 3 * max(len(a), len(b))) on the input length is modelled. -/
def filterStage (ff : List ℚ → List ℚ) (N : Int) (Tc : TcSpec) (btype : Btype)
    (d : RsDf) : Except PyErr RsDf :=
  match (uniqueVals (diffsUtc (d.rows.map (fun r => r.utc)))).head? with
  | none => .error .indexError
  | some dt =>
    if dt = 0 then .error .zeroDivision
    else
      match filterInit N Tc btype (1 / ((dt : ℚ) / 1000000)) with
      | .error e => .error e
      | .ok st =>
        if d.rows.length ≤ 3 * ntaps st then .error .padlenError
        else
          .ok ⟨mkRsRows (d.rows.map (fun r => r.utc))
            (ff (d.rows.map (fun r => r.freq)))
            (ff (d.rows.map (fun r => r.vpk)))
            (ff (d.rows.map (fun r => r.power)))⟩

/-- The named stages of a station dataset after construction. -/
structure GrapeState where
  raw : RawDf
  resampled : RsDf
  filtered : RsDf
  label : Label
  deriving DecidableEq

/-- GrapeData.__init__ (grape1.py:300-318): load the raw stage, resample it,
derive Power_dB on the resampled stage (grape1.py:315), then build the
filtered stage from a copy of the resampled frame — the resampled stage
keeps its derived Power_dB column. -/
def gdInit (inv : List InvRec) (files : String → Option RawDf) (node : Int)
    (freq : ℚ) (sT eT : Option Nat) (cs : Option String) (lat lon : Option ℚ)
    (gn : Option GrapeNodes) (cadence : Nat) (N : Int) (Tc : TcSpec)
    (btype : Btype) (lg : ℚ → ℚ) (ff : List ℚ → List ℚ) :
    Except PyErr GrapeState :=
  match loadRawData inv files node freq sT eT cs lat lon gn with
  | .error e => .error e
  | .ok raw =>
    match resample_data raw.df cadence with
    | .error e => .error e
    | .ok rsDf =>
      match filterStage ff N Tc btype (derivePower lg rsDf) with
      | .error e => .error e
      | .ok filt => .ok ⟨raw.df, derivePower lg rsDf, filt, raw.label⟩

/-- A Python value as far as the gen_lib model needs: strings, booleans and
modules or functions. -/
inductive PyVal where
  | str (s : String)
  | boolv (b : Bool)
  | module (m : String)
  deriving DecidableEq

/-- The names visible inside gen_lib.make_dir: its two parameters and the
module globals of gen_lib.py (the three imports and the three module-level
functions). -/
def makeDirEnv (path : String) (clear : Bool) : List (String × PyVal) :=
  [(("path"), .str path), (("clear"), .boolv clear),
   (("os"), .module ("os")), (("shutil"), .module ("shutil")),
   (("collections"), .module ("collections")),
   (("get_iterable"), .module ("function")), (("make_dir"), .module ("function")),
   (("adjust_axes"), .module ("function"))]

/-- Python name resolution: a reference to a name bound neither locally nor
globally raises NameError. -/
def lookupVar (env : List (String × PyVal)) (n : String) : Except PyErr PyVal :=
  match env.find? (fun p => decide (p.1 = n)) with
  | some p => .ok p.2
  | none => .error .nameError

/-- The file-system state: the set of existing directories. -/
structure FS where
  dirs : List String
  deriving DecidableEq

/-- shutil.rmtree: removes an existing directory, raises on a missing one. -/
def rmtree (fs : FS) (p : String) : Except PyErr FS :=
  if p ∈ fs.dirs then .ok ⟨fs.dirs.erase p⟩ else .error .fileNotFound

/-- os.makedirs: creates a missing directory, raises on an existing one. -/
def makedirs (fs : FS) (p : String) : Except PyErr FS :=
  if p ∈ fs.dirs then .error .fileExists else .ok ⟨p :: fs.dirs⟩

/-- Coerce a Python value to a path string. -/
def asStr : PyVal → Except PyErr String
  | .str s => .ok s
  | _ => .error .typeError

/-- The statement shutil.rmtree(value) of gen_lib.py:25: evaluate the name
value, then call rmtree on it. -/
def rmtreeValueStmt (env : List (String × PyVal)) (fs : FS) : Except PyErr FS := do
  let v ← lookupVar env ("value")
  let s ← asStr v
  rmtree fs s

/-- The statement os.makedirs(value) of gen_lib.py:29. -/
def makedirsValueStmt (env : List (String × PyVal)) (fs : FS) : Except PyErr FS := do
  let v ← lookupVar env ("value")
  let s ← asStr v
  makedirs fs s

/-- A try/bare-except/pass block around a state-changing statement: keep the
new state on success, keep the old state and swallow any exception
otherwise. -/
def tryExceptPass (fs : FS) (stmt : Except PyErr FS) : FS :=
  match stmt with
  | .ok fs2 => fs2
  | .error _ => fs

/-- gen_lib.make_dir (gen_lib.py:16-31).  Both statements reference the name
value, which is bound neither locally (the parameters are path and clear)
nor globally; each statement sits in a try block whose bare except swallows
the resulting NameError. -/
def make_dir (fs : FS) (path : String) (clear : Bool) : FS :=
  let fs1 :=
    if clear then tryExceptPass fs (rmtreeValueStmt (makeDirEnv path clear) fs)
    else fs
  tryExceptPass fs1 (makedirsValueStmt (makeDirEnv path clear) fs1)

/-- Concrete frame refuting claim C1 as stated: two rows at 0 s and 10.9 s. -/
def dfC1 : RawDf := ⟨[⟨0, 1, 2⟩, ⟨10900000, 3, 4⟩]⟩

/-- Concrete frame on which the amended claim C1 is witnessed. -/
def dfW1 : RawDf := ⟨[⟨0, 0, 1⟩, ⟨2000000, 0, 3⟩]⟩

/-- The concrete resampled output for dfW1. -/
def outW1 : RawDf := (resample_data dfW1 1000000).toOption.getD ⟨[]⟩

/-- Concrete frame with duplicated timestamps for claim C7. -/
def dfC7 : RawDf := ⟨[⟨1000000, 0, 5⟩, ⟨1000000, 0, 7⟩]⟩

/-- Concrete frame on which the amended claim C7 is witnessed. -/
def dfW7 : RawDf := ⟨[⟨0, 0, 1⟩, ⟨1000000, 0, 2⟩]⟩

/-- The concrete resampled output for dfW7. -/
def outW7 : RawDf := (resample_data dfW7 1000000).toOption.getD ⟨[]⟩

/-- A trivial datetime parser used to instantiate the abstracted pandas
to_datetime in concrete runs. -/
def pdC3 : String → Option Nat := fun _ => some 0

/-- Concrete inventory for the claim C2 counterexample: two records for the
same node and frequency at datetimes 0 and 1000. -/
def invC2 : List InvRec :=
  [⟨0, 1, ("AA"), .num 5, ("f0.csv")⟩,
   ⟨1000, 1, ("AA"), .num 5, ("f1.csv")⟩]

/-- Concrete inventory for the claim C2 witness. -/
def invW2 : List InvRec :=
  [⟨5, 2, ("BB"), .num 10, ("g0.csv")⟩,
   ⟨7, 2, ("BB"), .num 10, ("g1.csv")⟩]

/-- The selection invW2 produces with both endpoints omitted. -/
def selW2 : List InvRec := [⟨5, 2, ("BB"), .num 10, ("g0.csv")⟩]

/-- The surviving record of selW2. -/
def recW2 : InvRec := ⟨5, 2, ("BB"), .num 10, ("g0.csv")⟩

/-- A file store with no files at all. -/
def filesC6A : String → Option RawDf := fun _ => none

/-- Concrete inventory whose single record points at an empty file. -/
def invC6B : List InvRec := [⟨5, 1, ("CC"), .num 5, ("b.csv")⟩]

/-- A file store holding one empty file. -/
def filesC6B : String → Option RawDf :=
  fun n => if n = ("b.csv") then some ⟨[]⟩ else none

/-- Concrete inventory for the claim C6 witness (no record matches node 9). -/
def invW6 : List InvRec := [⟨5, 3, ("DD"), .num 5, ("d.csv")⟩]

/-- Concrete inventory for the claim C8 witness. -/
def invW8 : List InvRec := [⟨5, 1, ("EN91"), .num 5, ("w8.csv")⟩]

/-- Concrete raw file for the claim C8 witness: two rows spanning 4 s. -/
def fileW8 : RawDf := ⟨[⟨0, 5, 1⟩, ⟨4000000, 5, 3⟩]⟩

/-- File store for the claim C8 witness. -/
def filesW8 : String → Option RawDf :=
  fun n => if n = ("w8.csv") then some fileW8 else none

/-- An abstract log10 stand-in used by the claim C8 witness. -/
def lgW8 : ℚ → ℚ := fun _ => 7

/-- The concrete dataset built by the claim C8 witness run. -/
def gsW8 : GrapeState :=
  (gdInit invW8 filesW8 1 5 (some 0) (some 10) none none none none
    1000000 0 (.scalar 2) .low lgW8 id).toOption.getD
    ⟨⟨[]⟩, ⟨[]⟩, ⟨[]⟩, ⟨0, 0, ("")⟩⟩

/-- The first resampled row of the claim C8 witness run. -/
def rW8 : RsRow := (gsW8.resampled.rows.get? 0).getD ⟨0, 0, 0, 0⟩

theorem rsTimesAux_mem_lt {c e : Nat} :
    ∀ (f last : Nat), ∀ t ∈ rsTimesAux c f last e, t < e + c := by
  intro f
  induction f with
  | zero => intro last t ht; simp [rsTimesAux] at ht
  | succ f ih =>
    intro last t ht
    by_cases h : last < e
    · rw [rsTimesAux, if_pos h] at ht
      rcases List.mem_cons.mp ht with h1 | h2
      · omega
      · exact ih (last + c) t h2
    · rw [rsTimesAux, if_neg h] at ht
      simp at ht

theorem stepsBy_rsTimesAux (c e : Nat) :
    ∀ (f last : Nat), stepsBy c (last :: rsTimesAux c f last e) = true := by
  intro f
  induction f with
  | zero => intro last; rfl
  | succ f ih =>
    intro last
    by_cases h : last < e
    · rw [rsTimesAux, if_pos h]
      show ((last + c == last + c) && stepsBy c ((last + c) :: rsTimesAux c f (last + c) e)) = true
      simp [ih (last + c)]
    · rw [rsTimesAux, if_neg h]
      rfl

theorem rsTimesAux_getLastD {c : Nat} (hc : 0 < c) (e : Nat) :
    ∀ (f last : Nat), e - last ≤ f →
      e ≤ List.getLastD (rsTimesAux c f last e) last := by
  intro f
  induction f with
  | zero =>
    intro last h
    simp [rsTimesAux]
    omega
  | succ f ih =>
    intro last h
    by_cases hlt : last < e
    · rw [rsTimesAux, if_pos hlt, List.getLastD_cons]
      exact ih (last + c) (by omega)
    · rw [rsTimesAux, if_neg hlt]
      simp
      omega

theorem foldl_min_le (xs : List Nat) : ∀ x, xs.foldl Nat.min x ≤ x := by
  induction xs with
  | nil => intro x; simp
  | cons y ys ih =>
    intro x
    calc ys.foldl Nat.min (Nat.min x y) ≤ Nat.min x y := ih _
      _ ≤ x := Nat.min_le_left _ _

theorem le_foldl_max (xs : List Nat) : ∀ x, x ≤ xs.foldl Nat.max x := by
  induction xs with
  | nil => intro x; simp
  | cons y ys ih =>
    intro x
    calc x ≤ Nat.max x y := Nat.le_max_left _ _
      _ ≤ ys.foldl Nat.max (Nat.max x y) := ih _

theorem listMin?_le_listMax? {l : List Nat} {a b : Nat}
    (ha : listMin? l = some a) (hb : listMax? l = some b) : a ≤ b := by
  cases l with
  | nil => simp [listMin?] at ha
  | cons x xs =>
    simp [listMin?] at ha
    simp [listMax?] at hb
    subst ha; subst hb
    exact le_trans (foldl_min_le xs x) (le_foldl_max xs x)

theorem truncUs_mono {a b : Nat} (h : a ≤ b) : truncUs a ≤ truncUs b :=
  Nat.mul_le_mul_right _ (Nat.div_le_div_right h)

theorem interpCol_ok_length {pts : List (ℚ × ℚ)} {qs vs : List ℚ}
    (h : interpCol pts qs = .ok vs) : vs.length = qs.length := by
  unfold interpCol at h
  split at h
  · exact absurd h (by simp)
  · split at h
    · exact absurd h (by simp)
    · cases h
      simp

theorem interpCol_ok_two {pts : List (ℚ × ℚ)} {qs vs : List ℚ}
    (h : interpCol pts qs = .ok vs) : 2 ≤ pts.length := by
  unfold interpCol at h
  split at h
  · exact absurd h (by simp)
  · omega

theorem mkRawRows_map_utc : ∀ (ts : List Nat) (fs vs : List ℚ),
    fs.length = ts.length → vs.length = ts.length →
    (mkRawRows ts fs vs).map (fun r => r.utc) = ts := by
  intro ts
  induction ts with
  | nil =>
    intro fs vs _ _
    cases fs <;> cases vs <;> rfl
  | cons t ts ih =>
    intro fs vs hf hv
    cases fs with
    | nil => simp at hf
    | cons f fs =>
      cases vs with
      | nil => simp at hv
      | cons v vs =>
        simp only [mkRawRows, List.map_cons]
        rw [ih fs vs (by simpa using hf) (by simpa using hv)]

theorem resampleCols_ok_lengths {df : RawDf} {rs : List Nat}
    {fvals vvals : List ℚ}
    (h : resampleCols df rs = .ok (fvals, vvals)) :
    fvals.length = rs.length ∧ vvals.length = rs.length := by
  unfold resampleCols at h
  split at h
  next err heq => exact absurd h (by simp)
  next f heq =>
    split at h
    next err2 heq2 => exact absurd h (by simp)
    next v heq2 =>
      simp only [Except.ok.injEq, Prod.mk.injEq] at h
      obtain ⟨h1, h2⟩ := h
      subst h1; subst h2
      constructor
      · simpa using interpCol_ok_length heq
      · simpa using interpCol_ok_length heq2

theorem resampleCols_ok_rows_two {df : RawDf} {rs : List Nat}
    {fvals vvals : List ℚ}
    (h : resampleCols df rs = .ok (fvals, vvals)) : 2 ≤ df.rows.length := by
  unfold resampleCols at h
  split at h
  next err heq => exact absurd h (by simp)
  next f heq =>
    have h2 := interpCol_ok_two heq
    simp only [List.length_zip, jdCol, List.length_map] at h2
    omega

/-- Claim C1 (corrected): on the success path of resample_data the output
timestamps are exactly the model grid rs_times built from the whole-second
truncations of the first and last input timestamps; consecutive timestamps
differ by exactly the cadence; every timestamp is below the truncated end
plus one cadence; and the last timestamp is at least the truncated end — the
grid stops at the first entry at or beyond the truncated end, which may
exceed the truncated end, so the claimed upper bound does not hold. -/
theorem grape_c1_amended (df : RawDf) (c : Nat) (hc : 0 < c) (out : RawDf)
    (h : resample_data df c = .ok out) :
    utcs out = rs_times (truncUs (minUtc0 df)) (truncUs (maxUtc0 df)) c
    ∧ stepsBy c (utcs out) = true
    ∧ (∀ t ∈ utcs out, t < truncUs (maxUtc0 df) + c)
    ∧ truncUs (maxUtc0 df) ≤ (utcs out).getLastD 0 := by
  unfold resample_data at h
  split at h
  next sT eT hm hM =>
    split at h
    next err hcols => exact absurd h (by simp)
    next fvals vvals hcols =>
      simp only [Except.ok.injEq] at h
      subst h
      have hlen := resampleCols_ok_lengths hcols
      have hmin0 : minUtc0 df = sT := by simp [minUtc0, hm]
      have hmax0 : maxUtc0 df = eT := by simp [maxUtc0, hM]
      have hse : truncUs sT ≤ truncUs eT :=
        truncUs_mono (listMin?_le_listMax? hm hM)
      have hutc : utcs ⟨mkRawRows (resampleGrid sT eT c) fvals vvals⟩ =
          resampleGrid sT eT c := by
        unfold utcs
        exact mkRawRows_map_utc _ _ _ hlen.1 hlen.2
      rw [hmin0, hmax0, hutc]
      refine ⟨rfl, ?_, ?_, ?_⟩
      · exact stepsBy_rsTimesAux c (truncUs eT) _ (truncUs sT)
      · intro t ht
        unfold resampleGrid rs_times at ht
        rcases List.mem_cons.mp ht with h1 | h2
        · omega
        · exact rsTimesAux_mem_lt _ _ t h2
      · unfold resampleGrid rs_times
        rw [List.getLastD_cons]
        exact rsTimesAux_getLastD hc (truncUs eT) _ (truncUs sT) (by omega)
  next x y hne => exact absurd h (by simp)

/-- Counterexample to claim C1 as stated: resampling dfC1 at a cadence of
0.3 s succeeds, yet the output contains a timestamp (10.2 s) that exceeds
the last input timestamp truncated to whole seconds (10 s). -/
theorem grape_c1_counterexample :
    (resample_data dfC1 300000).toOption.map
      (fun out => (utcs out).any (fun t => decide (truncUs (maxUtc0 dfC1) < t)))
      = some true := by with_unfolding_all rfl

/-- Witness for the amended claim C1 at a concrete input. -/
theorem grape_c1_witness :
    utcs outW1 = rs_times (truncUs (minUtc0 dfW1)) (truncUs (maxUtc0 dfW1)) 1000000
    ∧ stepsBy 1000000 (utcs outW1) = true
    ∧ (∀ t ∈ utcs outW1, t < truncUs (maxUtc0 dfW1) + 1000000)
    ∧ truncUs (maxUtc0 dfW1) ≤ (utcs outW1).getLastD 0 :=
  grape_c1_amended dfW1 1000000 (by decide) outW1 (by with_unfolding_all rfl)

/-- Claim C7 (corrected): resample_data does fail on an empty series, with
the generic error of the min()/NaT/datetime path, and any successful
resampling needs at least two input rows (interp1d refuses fewer); but
duplicated timestamps do not make it fail — see the counterexample. -/
theorem grape_c7_amended :
    (∀ c : Nat, resample_data ⟨[]⟩ c = .error .emptySeriesMin)
    ∧ (∀ (df : RawDf) (c : Nat) (out : RawDf),
        resample_data df c = .ok out → 2 ≤ df.rows.length) := by
  constructor
  · intro c; rfl
  · intro df c out h
    unfold resample_data at h
    split at h
    next sT eT hm hM =>
      split at h
      next err hcols => exact absurd h (by simp)
      next fvals vvals hcols => exact resampleCols_ok_rows_two hcols
    next x y hne => exact absurd h (by simp)

/-- Counterexample to claim C7 as stated: a series whose two rows carry the
same timestamp is not rejected — resample_data succeeds on it (the Python
run returns NaN values, raising nothing), instead of failing with an
InvalidSeries error. -/
theorem grape_c7_counterexample :
    isOkB (resample_data dfC7 1000000) = true := by with_unfolding_all rfl

/-- Witness for the amended claim C7 at concrete inputs. -/
theorem grape_c7_witness :
    resample_data ⟨[]⟩ 5 = .error .emptySeriesMin ∧ 2 ≤ dfW7.rows.length :=
  ⟨grape_c7_amended.1 5,
   grape_c7_amended.2 dfW7 1000000 outW7 (by with_unfolding_all rfl)⟩

/-- Claim C3 (corrected): every recognized symbolic label is replaced by its
documented numeric Hz value, and a label containing G1 is excluded from the
record set; but any other unrecognized label is retained as its original
string rather than excluded — only the G1 naming errors are dropped. -/
theorem grape_c3_amended :
    (convertFreq ("WWV2p5") = .num 2500000 ∧ convertFreq ("WWV5") = .num 5000000
      ∧ convertFreq ("WWV10") = .num 10000000
      ∧ convertFreq ("WWV15") = .num 15000000
      ∧ convertFreq ("CHU3") = .num 3330000 ∧ convertFreq ("CHU7") = .num 7850000
      ∧ convertFreq ("CHU14") = .num 14670000 ∧ convertFreq ("Unknown") = .num 0)
    ∧ (∀ s : String, tableLookup s freqTable = none → convertFreq s = .str s)
    ∧ (∀ (parseDt : String → Option Nat) (fns : List String) (suffix : String)
        (recs : List InvRec), buildInventory parseDt fns suffix = .ok recs →
        ∀ r ∈ recs, ∀ s : String, r.freqval = .str s →
          hasSub (("G1").toList) s.toList = false
          ∧ tableLookup s freqTable = none) := by
  refine ⟨by with_unfolding_all exact ⟨rfl, rfl, rfl, rfl, rfl, rfl, rfl, rfl⟩, ?_, ?_⟩
  · intro s h
    unfold convertFreq
    rw [h]
  · intro parseDt fns suffix recs h r hr s hs
    unfold buildInventory at h
    split at h
    next e heq => exact absurd h (by simp)
    next pres heq =>
      simp only [Except.ok.injEq] at h
      subst h
      obtain ⟨pre, hpre, hrec⟩ := List.mem_map.mp hr
      obtain ⟨hpmem, hpkeep⟩ := List.mem_filter.mp hpre
      subst hrec
      simp only at hs
      unfold convertFreq at hs
      cases hl : tableLookup pre.freqLabel freqTable with
      | some v => rw [hl] at hs; exact absurd hs (by simp)
      | none =>
        rw [hl] at hs
        simp only [FreqVal.str.injEq] at hs
        subst hs
        refine ⟨?_, hl⟩
        simpa using hpkeep

/-- Counterexample to claim C3 as stated: a filename whose frequency label
XYZ is neither a recognized abbreviation nor numeric is retained in the
built inventory (with its string label), not excluded. -/
theorem grape_c3_counterexample :
    buildInventory pdC3 [("20210101_N0001234_G_EN91_FRQ_XYZ.csv")] (".csv")
      = .ok [⟨0, 1234, ("EN91"), .str ("XYZ"),
              ("20210101_N0001234_G_EN91_FRQ_XYZ.csv")⟩] := by
  with_unfolding_all rfl

/-- Witness for the amended claim C3 at concrete inputs. -/
theorem grape_c3_witness :
    convertFreq ("QQQ") = .str ("QQQ")
    ∧ (hasSub (("G1").toList) ("XYZ").toList = false
        ∧ tableLookup ("XYZ") freqTable = none) :=
  ⟨grape_c3_amended.2.1 ("QQQ") (by with_unfolding_all rfl),
   grape_c3_amended.2.2 pdC3 [("20210101_N0001234_G_EN91_FRQ_XYZ.csv")] (".csv")
     [⟨0, 1234, ("EN91"), .str ("XYZ"), ("20210101_N0001234_G_EN91_FRQ_XYZ.csv")⟩]
     (by with_unfolding_all rfl)
     ⟨0, 1234, ("EN91"), .str ("XYZ"), ("20210101_N0001234_G_EN91_FRQ_XYZ.csv")⟩
     (by with_unfolding_all decide) ("XYZ") (by with_unfolding_all rfl)⟩

/-- Claim C2 (corrected): with both endpoints supplied, selection keeps
exactly the matching records in the half-open range start ≤ t < end (then
sorts by datetime); but with the end omitted it defaults to the maximum
observed datetime and the strict upper bound then excludes every record at
that maximum — the record with the latest timestamp is not included. -/
theorem grape_c2_amended :
    (∀ (inv : List InvRec) (node : Int) (freq : ℚ) (s e : Nat),
      selectFiles inv node freq (some s) (some e) =
        .ok (((matchedRecs inv node freq).filter
            (fun r => decide (s ≤ r.dt) && decide (r.dt < e))).insertionSort
          (fun a b => a.dt ≤ b.dt)))
    ∧ (∀ (inv : List InvRec) (node : Int) (freq : ℚ) (sel : List InvRec),
        selectFiles inv node freq none none = .ok sel →
        ∀ r ∈ sel, ∀ M,
          listMax? ((matchedRecs inv node freq).map (fun r => r.dt)) = some M →
          r.dt < M) := by
  constructor
  · intro inv node freq s e
    rfl
  · intro inv node freq sel h r hr M hM
    unfold selectFiles at h
    split at h
    next s0 e0 hs he =>
      simp only [defaultTime] at hs he
      rw [hM] at he
      simp only [Option.some.injEq] at he
      subst he
      simp only [Except.ok.injEq] at h
      subst h
      have hperm := List.perm_insertionSort (fun a b : InvRec => a.dt ≤ b.dt)
        ((matchedRecs inv node freq).filter
          (fun r => decide (s0 ≤ r.dt) && decide (r.dt < M)))
      have hmem := hperm.mem_iff.mp hr
      have hf := List.mem_filter.mp hmem
      have h2 := hf.2
      simp only [Bool.and_eq_true, decide_eq_true_eq] at h2
      exact h2.2
    next x y hne => exact absurd h (by simp)

/-- Counterexample to claim C2 as stated: with the time range omitted, the
record with the latest datetime (1000) is excluded from the selection — the
default end time is the maximum datetime and the comparison is strict. -/
theorem grape_c2_counterexample :
    selectFiles invC2 1 5 none none =
      .ok [⟨0, 1, ("AA"), .num 5, ("f0.csv")⟩] := by
  with_unfolding_all rfl

/-- Witness for the amended claim C2 at concrete inputs. -/
theorem grape_c2_witness :
    selectFiles invW2 2 10 (some 0) (some 7) =
      .ok (((matchedRecs invW2 2 10).filter
          (fun r => decide (0 ≤ r.dt) && decide (r.dt < 7))).insertionSort
        (fun a b => a.dt ≤ b.dt))
    ∧ recW2.dt < 7 :=
  ⟨grape_c2_amended.1 invW2 2 10 0 7,
   grape_c2_amended.2 invW2 2 10 selW2 (by with_unfolding_all rfl)
     recW2 (by with_unfolding_all decide) 7 (by with_unfolding_all rfl)⟩

/-- Claim C6 (corrected): when the selection matches no file records the
load step does fail before any stage is created, but with the generic pandas
error of concatenating an empty list of frames — the same error the
counterexample shows for a selection whose files are all empty, so the
failure is not a distinguishable NoDataFound. -/
theorem grape_c6_amended (inv : List InvRec) (files : String → Option RawDf)
    (node : Int) (freq : ℚ) (s e : Nat) (cs : Option String)
    (lat lon : Option ℚ) (gn : Option GrapeNodes)
    (hsel : selectFiles inv node freq (some s) (some e) = .ok []) :
    loadRawData inv files node freq (some s) (some e) cs lat lon gn =
      .error .concatNoObjects := by
  unfold loadRawData
  rw [hsel]
  rfl

/-- Counterexample to claim C6 as stated: a selection that matches nothing
and a selection whose only matched file is empty produce the same error
value, so the two failure kinds are not distinguishable. -/
theorem grape_c6_counterexample :
    loadRawData [] filesC6A 1 5 (some 0) (some 10) none none none none =
      .error .concatNoObjects
    ∧ loadRawData invC6B filesC6B 1 5 (some 0) (some 10) none none none none =
      .error .concatNoObjects := by
  refine ⟨?_, ?_⟩ <;> with_unfolding_all rfl

/-- Witness for the amended claim C6 at concrete inputs. -/
theorem grape_c6_witness :
    loadRawData invW6 filesC6A 9 5 (some 0) (some 10) none none none none =
      .error .concatNoObjects :=
  grape_c6_amended invW6 filesC6A 9 5 0 10 none none none none
    (by with_unfolding_all rfl)

/-- Claim C10 (confirmed): a caller-supplied call sign is discarded — the
resolved call sign is the empty string, and the load result does not depend
on the supplied value at all, so the dataset label never carries it. -/
theorem grape_c10 :
    (∀ (s : String) (gn : Option GrapeNodes) (node : Int),
      resolveCallSign (some s) gn node = .ok (""))
    ∧ (∀ (inv : List InvRec) (files : String → Option RawDf) (node : Int)
        (freq : ℚ) (sT eT : Option Nat) (s1 s2 : String)
        (lat lon : Option ℚ) (gn : Option GrapeNodes),
        loadRawData inv files node freq sT eT (some s1) lat lon gn =
          loadRawData inv files node freq sT eT (some s2) lat lon gn) := by
  constructor
  · intro s gn node
    rfl
  · intro inv files node freq sT eT s1 s2 lat lon gn
    rfl

/-- Claim C8 (confirmed): after the resample stage is built the
orchestration derives Power_dB on the resampled stage, and every resampled
sample with peak voltage v > 0 carries Power_dB = 20 * log10(v), for the
abstracted log10. -/
theorem grape_c8 (inv : List InvRec) (files : String → Option RawDf)
    (node : Int) (freq : ℚ) (sT eT : Option Nat) (cs : Option String)
    (lat lon : Option ℚ) (gn : Option GrapeNodes) (cadence : Nat) (N : Int)
    (Tc : TcSpec) (btype : Btype) (lg : ℚ → ℚ) (ff : List ℚ → List ℚ)
    (gs : GrapeState)
    (h : gdInit inv files node freq sT eT cs lat lon gn cadence N Tc btype lg ff
      = .ok gs)
    (i : Nat) (r : RsRow) (hr : gs.resampled.rows.get? i = some r)
    (hv : 0 < r.vpk) : r.power = 20 * lg r.vpk := by
  unfold gdInit at h
  split at h
  next e heq => exact absurd h (by simp)
  next raw heq =>
    split at h
    next e heq2 => exact absurd h (by simp)
    next rsDf heq2 =>
      split at h
      next e heq3 => exact absurd h (by simp)
      next filt heq3 =>
        simp only [Except.ok.injEq] at h
        subst h
        have hr2 : ((rsDf.rows.map
            (fun r => (⟨r.utc, r.freq, r.vpk, 20 * lg r.vpk⟩ : RsRow))).get? i)
            = some r := hr
        rw [List.get?_map] at hr2
        cases hg : rsDf.rows.get? i with
        | none => rw [hg] at hr2; exact absurd hr2 (by simp)
        | some r0 =>
          rw [hg] at hr2
          have hr3 : (⟨r0.utc, r0.freq, r0.vpk, 20 * lg r0.vpk⟩ : RsRow) = r := by
            simpa using hr2
          subst hr3
          rfl

/-- Witness for claim C8: a concrete end-to-end run in which the first
resampled sample has Vpk = 1 > 0 and Power_dB = 20 * log10(1) for the
abstracted log10. -/
theorem grape_c8_witness : rW8.power = 20 * lgW8 rW8.vpk :=
  grape_c8 invW8 filesW8 1 5 (some 0) (some 10) none none none none
    1000000 0 (.scalar 2) .low lgW8 id gsW8 (by with_unfolding_all rfl) 0 rW8
    (by with_unfolding_all rfl) (by with_unfolding_all decide)

/-- Claim C4 (corrected): a negative order, a nonpositive cutoff period or a
cutoff at or above the sampling rate all make construction fail — but with
the generic scipy ValueError raised inside signal.butter (there is no
InvalidFilterSpec and no validation before the coefficient computation is
entered), and order 0 does not fail at all (see the counterexample). -/
theorem grape_c4_amended :
    (∀ (N : Int) (Tc : TcSpec) (btype : Btype) (fs : ℚ), N < 0 →
      isOkB (filterInit N Tc btype fs) = false)
    ∧ (∀ (N : Int) (tc : ℚ) (btype : Btype) (fs : ℚ), tc ≤ 0 → 0 < fs →
      isOkB (filterInit N (.scalar tc) btype fs) = false)
    ∧ (∀ (N : Int) (tc : ℚ) (btype : Btype) (fs : ℚ), 0 < tc → 0 < fs →
      fs ≤ 1 / (tc * 60) →
      isOkB (filterInit N (.scalar tc) btype fs) = false) := by
  refine ⟨?_, ?_, ?_⟩
  · intro N Tc btype fs hN
    unfold filterInit butter
    by_cases h1 : wnAnyBad fs (filterWn Tc) = true
    · rw [if_pos h1]
      rfl
    · rw [if_neg h1]
      by_cases h2 : (!arityOk btype (filterWn Tc)) = true
      · rw [if_pos h2]
        rfl
      · rw [if_neg h2, if_pos hN]
        rfl
  · intro N tc btype fs htc hfs
    have hbad : wnAnyBad fs (filterWn (.scalar tc)) = true := by
      simp only [filterWn, wnAnyBad, wn1]
      rcases eq_or_lt_of_le htc with heq | hlt
      · rw [if_pos heq]
        rfl
      · rw [if_neg (ne_of_lt hlt)]
        simp only [wnBad]
        have hneg : 1 / (tc * 60) < 0 := by
          apply one_div_neg.mpr
          nlinarith
        have h1 : 2 * (1 / (tc * 60)) / fs ≤ 0 := by
          apply div_nonpos_of_nonpos_of_nonneg
          · nlinarith
          · exact le_of_lt hfs
        rw [decide_eq_true h1]
        rfl
    unfold filterInit
    unfold butter
    rw [hbad]
    rfl
  · intro N tc btype fs htc hfs hcut
    have hbad : wnAnyBad fs (filterWn (.scalar tc)) = true := by
      simp only [filterWn, wnAnyBad, wn1]
      rw [if_neg (ne_of_gt htc)]
      simp only [wnBad]
      have h2 : (1 : ℚ) ≤ 1 / (tc * 60) / fs := (one_le_div hfs).mpr hcut
      have h0 : (0 : ℚ) ≤ 1 / (tc * 60) / fs := le_trans zero_le_one h2
      have h3 : (1 : ℚ) ≤ 2 * (1 / (tc * 60)) / fs := by
        rw [mul_div_assoc]
        calc (1 : ℚ) ≤ 1 / (tc * 60) / fs := h2
          _ ≤ 2 * (1 / (tc * 60) / fs) := le_mul_of_one_le_left h0 (by norm_num)
      rw [decide_eq_true h3, Bool.or_true]
    unfold filterInit
    unfold butter
    rw [hbad]
    rfl

/-- Counterexample to claim C4 as stated: constructing a filter with order 0
(default cutoff 3.3333 minutes, lowpass, fs = 1) succeeds — scipy buttap
accepts order 0 and yields a trivial design, while the claim requires every
order ≤ 0 to fail. -/
theorem grape_c4_counterexample :
    isOkB (filterInit 0 (.scalar (33333/10000)) .low 1) = true := by
  with_unfolding_all rfl

/-- Witness for the amended claim C4 at concrete inputs. -/
theorem grape_c4_witness :
    isOkB (filterInit (-1) (.scalar 2) .low 1) = false
    ∧ isOkB (filterInit 6 (.scalar 0) .low 1) = false
    ∧ isOkB (filterInit 6 (.scalar 1) .low (1/100)) = false :=
  ⟨grape_c4_amended.1 (-1) (.scalar 2) .low 1 (by norm_num),
   grape_c4_amended.2.1 6 0 .low 1 (by norm_num) (by norm_num),
   grape_c4_amended.2.2 6 1 .low (1/100) (by norm_num) (by norm_num) (by norm_num)⟩

/-- Claim C5 (confirmed): a scalar cutoff period Tc becomes the normalized
cutoff 1/(60*Tc), and a pair of periods given in increasing order becomes
the element-wise reciprocal in reversed order, which is increasing. -/
theorem grape_c5 :
    (∀ tc : ℚ, 0 < tc → filterWn (.scalar tc) = .scalar (some (1 / (tc * 60))))
    ∧ (∀ t1 t2 : ℚ, 0 < t1 → t1 < t2 →
        filterWn (.pair t1 t2) =
          .pair (some (1 / (t2 * 60))) (some (1 / (t1 * 60)))
        ∧ 1 / (t2 * 60) < 1 / (t1 * 60)) := by
  constructor
  · intro tc h
    simp only [filterWn, wn1]
    rw [if_neg (ne_of_gt h)]
  · intro t1 t2 h1 h12
    constructor
    · simp only [filterWn, wn1]
      rw [if_neg (ne_of_gt (lt_trans h1 h12)), if_neg (ne_of_gt h1)]
    · exact one_div_lt_one_div_of_lt (by positivity) (by nlinarith)

/-- Witness for claim C5 at concrete inputs. -/
theorem grape_c5_witness :
    filterWn (.scalar 2) = .scalar (some (1 / (2 * 60)))
    ∧ filterWn (.pair 2 3) = .pair (some (1 / (3 * 60))) (some (1 / (2 * 60)))
    ∧ 1 / ((3 : ℚ) * 60) < 1 / (2 * 60) :=
  ⟨grape_c5.1 2 (by norm_num),
   (grape_c5.2 2 3 (by norm_num) (by norm_num)).1,
   (grape_c5.2 2 3 (by norm_num) (by norm_num)).2⟩

/-- Claim C9 (confirmed): make_dir never raises and never changes the file
system — both of its statements reference the undefined name value, so each
raises NameError, which the bare except swallows; nothing is ever deleted or
created. -/
theorem grape_c9 (fs : FS) (path : String) (clear : Bool) :
    make_dir fs path clear = fs := by
  have h1 : ∀ g : FS, rmtreeValueStmt (makeDirEnv path clear) g = .error .nameError :=
    fun g => rfl
  have h2 : ∀ g : FS, makedirsValueStmt (makeDirEnv path clear) g = .error .nameError :=
    fun g => rfl
  cases clear with
  | false => simp [make_dir, tryExceptPass, h1, h2]
  | true => simp [make_dir, tryExceptPass, h1, h2]
